import Mathlib

/-!
Shallow embedding of the VoyageRisk360 risk-aggregation engine.

Source files embedded:
* `src/server/seedShipments.ts` — the sync seed-time risk calculator
  (`Seed` namespace: `calculateFactorRisk`, `calculateRouteRisk`) and the
  async risk engine (`RiskEngine` namespace: `calculateSimulatedRisk`,
  `calculateWeatherRisk`, `calculateTrafficRisk`, `calculatePiracyRisk`,
  `calculateClaimsRisk`, `calculateRouteRisk`).
* `src/server/services/weatherService.ts` — `WeatherService` namespace.
* the AISstream traffic service (`src/unnamed/part_001`) — `TrafficService`
  namespace.

Modelling conventions:
* JS numbers are modelled as `ℚ`.  The one place the source can produce a
  JS `NaN` (the simulated estimator's `0/0` normalisation on an empty
  waypoint list) is modelled by an `Option` result, `none` standing for
  `NaN`; everywhere else the source arithmetic is NaN-free on its actual
  inputs.
* `Math.round` is `jsRound q = ⌊q + 1/2⌋` (JS rounds half-up).
* `Math.random()` is modelled as an environment-supplied stream
  `rand : ℕ → ℚ`; the JS contract is `0 ≤ rand i < 1`.
* External I/O (the Open-Meteo HTTP fetch, the AISstream WebSocket
  session) is modelled by oracles in an `Env` record: the weather oracle
  returns the parsed JSON `current` block (`none` = non-2xx / network /
  JSON-parse failure; inside the block each field is optional, a missing
  field), the traffic oracle returns the number of distinct vessels a
  completed session observed (`none` = session error).
* Externally observable calls (HTTP fetches, WebSocket sessions, uses of
  the simulated estimator) are traced in a `List CallEvent` returned next
  to each value, mirroring exactly where the source performs them.
-/

namespace VoyageRisk

/-- JS `Math.round`: round half away from zero towards `+∞`,
i.e. `Math.round x = ⌊x + 0.5⌋`. -/
def jsRound (q : ℚ) : ℤ := ⌊q + 1/2⌋

/-- A route waypoint, `{ latitude, longitude }` in
`src/server/seedShipments.ts`. -/
structure Waypoint where
  latitude : ℚ
  longitude : ℚ
deriving DecidableEq, Repr

/-- A rectangular risk zone
`{ minLat, maxLat, minLng, maxLng }` from `HIGH_RISK_ZONES`. -/
structure Zone where
  minLat : ℚ
  maxLat : ℚ
  minLng : ℚ
  maxLng : ℚ
deriving DecidableEq, Repr

/-- `isInZone` from `src/server/seedShipments.ts`:
`lat >= zone.minLat && lat <= zone.maxLat && lng >= zone.minLng && lng <= zone.maxLng`.
(The file contains two textually identical copies, one for the seed
calculator and one for the risk engine.) -/
def isInZone (lat lng : ℚ) (zone : Zone) : Bool :=
  decide (zone.minLat ≤ lat) && decide (lat ≤ zone.maxLat) &&
  decide (zone.minLng ≤ lng) && decide (lng ≤ zone.maxLng)

/-- The `HIGH_RISK_ZONES` constant table (identical in both copies in
`src/server/seedShipments.ts`). -/
structure ZoneTable where
  piracy : List Zone
  weather : List Zone
  traffic : List Zone
  claims : List Zone

def HIGH_RISK_ZONES : ZoneTable where
  piracy :=
    [⟨0, 15, 40, 60⟩,    -- Gulf of Aden
     ⟨-5, 10, 90, 110⟩]  -- Southeast Asia
  weather :=
    [⟨10, 30, 40, 80⟩,   -- Monsoon region
     ⟨20, 40, 120, 160⟩] -- Pacific typhoon
  traffic :=
    [⟨1, 5, 100, 106⟩,   -- Malacca Strait
     ⟨30, 40, -10, 10⟩]  -- Gibraltar Strait
  claims :=
    [⟨5, 20, 65, 85⟩,    -- Arabian Sea
     ⟨35, 45, 10, 30⟩]   -- Mediterranean

/-- The sampling policy shared verbatim by
`getRouteWeatherRisk` (`weatherService.ts`, target 5) and
`getRouteTrafficRisk` (traffic service, target 3):
`sampleInterval = Math.max(1, Math.floor(waypoints.length / target))`,
`waypoints.filter((_, index) => index % sampleInterval === 0)`. -/
def sampleWaypoints (waypoints : List Waypoint) (targetCount : ℕ) : List Waypoint :=
  let sampleInterval := max 1 (waypoints.length / targetCount)
  (waypoints.enum.filter (fun p => p.1 % sampleInterval == 0)).map (·.2)

/-- One risk factor of the engine. -/
inductive Factor
  | weather | piracy | traffic | claims
deriving DecidableEq, Repr

/-- Externally observable calls made during a risk computation:
an Open-Meteo HTTP fetch, an AISstream WebSocket session, or a use of the
simulated estimator for a factor. -/
inductive CallEvent
  | weatherHttpFetch (lat lng : ℚ)
  | aisSession (lat lng : ℚ)
  | simulated (f : Factor)
deriving DecidableEq, Repr

end VoyageRisk

namespace WeatherService

open VoyageRisk

/-- The `data.current` block of an Open-Meteo response as parsed JSON:
each field may be absent (`none`). -/
structure RawCurrent where
  wave_height : Option ℚ
  wind_wave_height : Option ℚ
  swell_wave_height : Option ℚ
  ocean_current_velocity : Option ℚ
  sea_surface_temperature : Option ℚ
deriving DecidableEq, Repr

/-- `WeatherData` from `weatherService.ts`: all fields present
(missing raw fields were defaulted to `0` by `?? 0`). -/
structure WeatherData where
  wave_height : ℚ
  wind_wave_height : ℚ
  swell_wave_height : ℚ
  ocean_current_velocity : ℚ
  sea_surface_temperature : ℚ
deriving DecidableEq, Repr

/-- `WeatherRiskResult` from `weatherService.ts` (the `factors` sub-record
flattened). -/
structure WeatherRiskResult where
  riskScore : ℤ
  waveHeight : ℚ
  windWaveHeight : ℚ
  currentVelocity : ℚ
deriving DecidableEq, Repr

/-- The HTTP fetch oracle: `none` models a non-2xx response, a network
error, or a JSON-parse failure (all caught and turned into `null` by the
source); `some raw` models a parsed 2xx payload's `current` block. -/
abbrev FetchOracle := ℚ → ℚ → Option RawCurrent

/-- `fetchMarineWeather` from `weatherService.ts`: on any fetch/parse
failure return `null`; on success default each missing field to `0`
(`data.current?.f ?? 0`). -/
def fetchMarineWeather (oracle : FetchOracle) (latitude longitude : ℚ) :
    Option WeatherData :=
  match oracle latitude longitude with
  | none => none
  | some raw =>
      some { wave_height := raw.wave_height.getD 0
             wind_wave_height := raw.wind_wave_height.getD 0
             swell_wave_height := raw.swell_wave_height.getD 0
             ocean_current_velocity := raw.ocean_current_velocity.getD 0
             sea_surface_temperature := raw.sea_surface_temperature.getD 0 }

/-- `calculateWeatherRisk` from `weatherService.ts` (the per-reading
score). -/
def calculateWeatherRisk (weather : WeatherData) : WeatherRiskResult :=
  let WAVE_HEIGHT_THRESHOLD : ℚ := 4.0
  let WIND_WAVE_THRESHOLD : ℚ := 3.0
  let CURRENT_THRESHOLD : ℚ := 15.0
  let waveRisk := min ((weather.wave_height / WAVE_HEIGHT_THRESHOLD) * 100) 100
  let windWaveRisk := min ((weather.wind_wave_height / WIND_WAVE_THRESHOLD) * 100) 100
  let currentRisk := min ((weather.ocean_current_velocity / CURRENT_THRESHOLD) * 100) 100
  let swellMultiplier : ℚ := if weather.swell_wave_height > 2.0 then 1.2 else 1.0
  let overallRisk :=
    min ((waveRisk * 0.4 + windWaveRisk * 0.4 + currentRisk * 0.2) * swellMultiplier) 100
  { riskScore := jsRound overallRisk
    waveHeight := weather.wave_height
    windWaveHeight := weather.wind_wave_height
    currentVelocity := weather.ocean_current_velocity }

/-- `getWeatherRisk` from `weatherService.ts`. -/
def getWeatherRisk (oracle : FetchOracle) (latitude longitude : ℚ) :
    Option WeatherRiskResult :=
  match fetchMarineWeather oracle latitude longitude with
  | none => none
  | some weather => some (calculateWeatherRisk weather)

/-- `getRouteWeatherRisk` from `weatherService.ts`: sample (target 5),
fetch each sampled point, drop failed fetches, average the per-point
scores, `null` if none succeeded.  One HTTP fetch per sampled waypoint is
traced. -/
def getRouteWeatherRisk (oracle : FetchOracle) (waypoints : List Waypoint) :
    Option ℤ × List CallEvent :=
  if waypoints.length = 0 then (none, [])
  else
    let sampledWaypoints := sampleWaypoints waypoints 5
    let results := sampledWaypoints.map
      (fun wp => getWeatherRisk oracle wp.latitude wp.longitude)
    let validResults := results.filterMap id
    let events := sampledWaypoints.map
      (fun wp => CallEvent.weatherHttpFetch wp.latitude wp.longitude)
    if validResults.length = 0 then (none, events)
    else
      let scoreSum : ℤ := (validResults.map (·.riskScore)).sum
      (some (jsRound ((scoreSum : ℚ) / (validResults.length : ℚ))), events)

end WeatherService

namespace TrafficService

open VoyageRisk

/-- `TrafficRiskResult` from the AISstream traffic service. -/
structure TrafficRiskResult where
  riskScore : ℤ
  vesselCount : ℕ
  vesselDensity : ℚ
deriving DecidableEq, Repr

/-- The AISstream session oracle: for a sampled point, `some n` models a
session that ran to its timeout having observed `n` distinct vessel
identifiers (`PositionReport` `UserID`s); `none` models a WebSocket
error, which makes `getVesselDensity` resolve `null`. -/
abbrev SessionOracle := ℚ → ℚ → Option ℕ

/-- JS truthiness of the `apiKey` parameter (`if (!apiKey)`): absent or
empty string is falsy. -/
def keyPresent : Option String → Bool
  | none => false
  | some s => !s.isEmpty

/-- `calculateBboxArea` from the traffic service:
`(radiusDegrees * 2 * 111)^2` square kilometres. -/
def calculateBboxArea (radiusDegrees : ℚ) : ℚ :=
  let kmPerDegree : ℚ := 111
  let sideLength := radiusDegrees * 2 * kmPerDegree
  sideLength * sideLength

/-- The density→score piecewise curve from `getVesselDensity`'s timeout
callback: thresholds `<0.01` low, `[0.01,0.05)` medium, `[0.05,0.1)`
high, `≥0.1` critical. -/
def densityRiskScore (density : ℚ) : ℚ :=
  if density < 0.01 then min (density * 1000) 20
  else if density < 0.05 then 20 + ((density - 0.01) / 0.04) * 30
  else if density < 0.1 then 50 + ((density - 0.05) / 0.05) * 30
  else min (80 + (density - 0.1) * 200) 100

/-- `getVesselDensity` from the traffic service.  Without a (truthy) API
key it resolves `null` before any WebSocket is created.  With a key a
WebSocket session is opened (traced); a session error resolves `null`, a
completed session computes the vessel density over the `0.5°` bounding
box and the piecewise risk score. -/
def getVesselDensity (latitude longitude : ℚ) (apiKey : Option String)
    (oracle : SessionOracle) : Option TrafficRiskResult × List CallEvent :=
  if !keyPresent apiKey then (none, [])
  else
    let radiusDegrees : ℚ := 0.5
    match oracle latitude longitude with
    | none => (none, [CallEvent.aisSession latitude longitude])
    | some vesselCount =>
        let area := calculateBboxArea radiusDegrees
        let density := (vesselCount : ℚ) / area
        (some { riskScore := jsRound (densityRiskScore density)
                vesselCount := vesselCount
                vesselDensity := density },
         [CallEvent.aisSession latitude longitude])

/-- The sequential `for (const wp of sampledWaypoints)` loop of
`getRouteTrafficRisk`: query each point in order, keep the successful
results. -/
def trafficLoop (apiKey : Option String) (oracle : SessionOracle) :
    List Waypoint → List TrafficRiskResult × List CallEvent
  | [] => ([], [])
  | wp :: rest =>
      let (r, events) := getVesselDensity wp.latitude wp.longitude apiKey oracle
      let (rs, restEvents) := trafficLoop apiKey oracle rest
      (match r with
       | some result => result :: rs
       | none => rs,
       events ++ restEvents)

/-- `getRouteTrafficRisk` from the traffic service: `null` on an empty
route or a missing key; otherwise sample (target 3), query sequentially,
`null` if every query failed, else the rounded average score. -/
def getRouteTrafficRisk (waypoints : List Waypoint) (apiKey : Option String)
    (oracle : SessionOracle) : Option ℤ × List CallEvent :=
  if waypoints.length = 0 then (none, [])
  else if !keyPresent apiKey then (none, [])
  else
    let sampledWaypoints := sampleWaypoints waypoints 3
    let (results, events) := trafficLoop apiKey oracle sampledWaypoints
    if results.length = 0 then (none, events)
    else
      let scoreSum : ℤ := (results.map (·.riskScore)).sum
      (some (jsRound ((scoreSum : ℚ) / (results.length : ℚ))), events)

end TrafficService

namespace RiskEngine

open VoyageRisk WeatherService TrafficService

/-- The environment of one risk computation: the two external-data
oracles, the AISstream credential (`process.env.AISSTREAM_API_KEY`), and
one `Math.random()` stream per factor computation. -/
structure Env where
  weatherFetch : FetchOracle
  aisKey : Option String
  trafficFetch : SessionOracle
  randWeather : ℕ → ℚ
  randPiracy : ℕ → ℚ
  randTraffic : ℕ → ℚ
  randClaims : ℕ → ℚ

/-- A `Math.random()` stream obeys the JS contract `0 ≤ r < 1`. -/
def RandValid (rand : ℕ → ℚ) : Prop := ∀ i, 0 ≤ rand i ∧ rand i < 1

/-- Weather readings are physical quantities: every field present in a
payload the weather oracle can return is nonnegative. -/
def RawNonneg (raw : RawCurrent) : Prop :=
  (∀ x, raw.wave_height = some x → 0 ≤ x) ∧
  (∀ x, raw.wind_wave_height = some x → 0 ≤ x) ∧
  (∀ x, raw.swell_wave_height = some x → 0 ≤ x) ∧
  (∀ x, raw.ocean_current_velocity = some x → 0 ≤ x) ∧
  (∀ x, raw.sea_surface_temperature = some x → 0 ≤ x)

/-- A well-formed environment: the four random streams are in `[0,1)` and
weather payloads carry nonnegative readings. -/
def EnvValid (env : Env) : Prop :=
  RandValid env.randWeather ∧ RandValid env.randPiracy ∧
  RandValid env.randTraffic ∧ RandValid env.randClaims ∧
  ∀ lat lng raw, env.weatherFetch lat lng = some raw → RawNonneg raw

/-- The accumulation of `riskPoints` by
`waypoints.forEach(...)` in `calculateSimulatedRisk`: an in-zone point
adds the fixed weight `2`, an out-of-zone point adds `Math.random() * 0.5`
(one draw from the stream per out-of-zone visit; `i` is the position in
the traversal). -/
def simPoints (zones : List Zone) (rand : ℕ → ℚ) : ℕ → List Waypoint → ℚ
  | _, [] => 0
  | i, wp :: rest =>
      (if zones.any (fun zone => isInZone wp.latitude wp.longitude zone)
       then 2 else rand i * 0.5) +
      simPoints zones rand (i + 1) rest

/-- `calculateSimulatedRisk` from the risk engine in
`src/server/seedShipments.ts`.  There is no guard for an empty list in
the source: with `totalChecks = 0` the JS normalisation
`(riskPoints / (totalChecks * 2)) * 100` is `0/0 = NaN`, and
`Math.min(Math.round(NaN), 100)` stays `NaN` — modelled as `none`. -/
def calculateSimulatedRisk (waypoints : List Waypoint) (zones : List Zone)
    (rand : ℕ → ℚ) : Option ℤ :=
  let riskPoints := simPoints zones rand 0 waypoints
  let totalChecks := waypoints.length
  if totalChecks = 0 then none
  else
    let avgRisk := riskPoints / (totalChecks * 2) * 100
    some (min (jsRound avgRisk) 100)

/-- `calculateWeatherRisk` from the risk engine: prefer the Open-Meteo
route score, else fall back to the simulated estimator over the weather
zones. -/
def calculateWeatherRisk (env : Env) (waypoints : List Waypoint) :
    Option ℤ × List CallEvent :=
  let (realRisk, events) := getRouteWeatherRisk env.weatherFetch waypoints
  match realRisk with
  | some r => (some r, events)
  | none =>
      (calculateSimulatedRisk waypoints HIGH_RISK_ZONES.weather env.randWeather,
       events ++ [CallEvent.simulated Factor.weather])

/-- `calculateTrafficRisk` from the risk engine: without a (truthy)
AISstream key, go straight to the simulated estimator; with one, prefer
the AISstream route score, else fall back. -/
def calculateTrafficRisk (env : Env) (waypoints : List Waypoint) :
    Option ℤ × List CallEvent :=
  if !keyPresent env.aisKey then
    (calculateSimulatedRisk waypoints HIGH_RISK_ZONES.traffic env.randTraffic,
     [CallEvent.simulated Factor.traffic])
  else
    let (realRisk, events) := getRouteTrafficRisk waypoints env.aisKey env.trafficFetch
    match realRisk with
    | some r => (some r, events)
    | none =>
        (calculateSimulatedRisk waypoints HIGH_RISK_ZONES.traffic env.randTraffic,
         events ++ [CallEvent.simulated Factor.traffic])

/-- `calculatePiracyRisk` from the risk engine: always simulated. -/
def calculatePiracyRisk (env : Env) (waypoints : List Waypoint) :
    Option ℤ × List CallEvent :=
  (calculateSimulatedRisk waypoints HIGH_RISK_ZONES.piracy env.randPiracy,
   [CallEvent.simulated Factor.piracy])

/-- `calculateClaimsRisk` from the risk engine: always simulated. -/
def calculateClaimsRisk (env : Env) (waypoints : List Waypoint) :
    Option ℤ × List CallEvent :=
  (calculateSimulatedRisk waypoints HIGH_RISK_ZONES.claims env.randClaims,
   [CallEvent.simulated Factor.claims])

/-- `RiskScores` from `src/server/seedShipments.ts`.  Fields are JS
numbers; `Option ℤ` with `none = NaN` matches the NaN convention above
(on every reachable input all fields are integers, proved below). -/
structure RiskScores where
  overall : Option ℤ
  weather : Option ℤ
  piracy : Option ℤ
  traffic : Option ℤ
  claims : Option ℤ
deriving DecidableEq, Repr

/-- The all-zero scores returned for an empty route. -/
def zeroScores : RiskScores :=
  { overall := some 0, weather := some 0, piracy := some 0,
    traffic := some 0, claims := some 0 }

/-- The weighted combination
`Math.round(weather*0.25 + piracy*0.35 + traffic*0.2 + claims*0.2)`,
NaN-propagating. -/
def weightedOverall (weather piracy traffic claims : Option ℤ) : Option ℤ :=
  match weather, piracy, traffic, claims with
  | some w, some p, some t, some c =>
      some (jsRound ((w : ℚ) * 0.25 + (p : ℚ) * 0.35 + (t : ℚ) * 0.2 + (c : ℚ) * 0.2))
  | _, _, _, _ => none

/-- `calculateRouteRisk` (the async risk engine version,
`src/server/seedShipments.ts`): empty route short-circuits to all
zeros; otherwise the four factors are computed (concurrently in the
source — they are independent, so sequential composition of the pure
model is faithful) and combined by the fixed weights. -/
def calculateRouteRisk (env : Env) (waypoints : List Waypoint) :
    RiskScores × List CallEvent :=
  if waypoints.length = 0 then (zeroScores, [])
  else
    let (weather, weatherEvents) := calculateWeatherRisk env waypoints
    let (piracy, piracyEvents) := calculatePiracyRisk env waypoints
    let (traffic, trafficEvents) := calculateTrafficRisk env waypoints
    let (claims, claimsEvents) := calculateClaimsRisk env waypoints
    ({ overall := weightedOverall weather piracy traffic claims
       weather := weather, piracy := piracy, traffic := traffic, claims := claims },
     weatherEvents ++ piracyEvents ++ trafficEvents ++ claimsEvents)

end RiskEngine

namespace Seed

open VoyageRisk

/-- `calculateFactorRisk` from the sync seed-time calculator in
`src/server/seedShipments.ts` — textually identical to the risk engine's
`calculateSimulatedRisk` (same zone test, same `+2` / `Math.random()*0.5`
accumulation, same `0/0 = NaN` on an empty list, modelled as `none`). -/
def calculateFactorRisk (waypoints : List Waypoint) (zones : List Zone)
    (rand : ℕ → ℚ) : Option ℤ :=
  let riskPoints := RiskEngine.simPoints zones rand 0 waypoints
  let totalChecks := waypoints.length
  if totalChecks = 0 then none
  else
    let avgRisk := riskPoints / (totalChecks * 2) * 100
    some (min (jsRound avgRisk) 100)

/-- The sync `calculateRouteRisk` from `src/server/seedShipments.ts`
(seed-time, no external providers): all four factors from
`calculateFactorRisk`, then the same weighted combination. -/
def calculateRouteRisk (waypoints : List Waypoint)
    (randWeather randPiracy randTraffic randClaims : ℕ → ℚ) :
    RiskEngine.RiskScores :=
  if waypoints.length = 0 then RiskEngine.zeroScores
  else
    let weather := calculateFactorRisk waypoints HIGH_RISK_ZONES.weather randWeather
    let piracy := calculateFactorRisk waypoints HIGH_RISK_ZONES.piracy randPiracy
    let traffic := calculateFactorRisk waypoints HIGH_RISK_ZONES.traffic randTraffic
    let claims := calculateFactorRisk waypoints HIGH_RISK_ZONES.claims randClaims
    { overall := RiskEngine.weightedOverall weather piracy traffic claims
      weather := weather, piracy := piracy, traffic := traffic, claims := claims }

end Seed

/-! ## Helper lemmas -/

namespace VoyageRisk

theorem jsRound_nonneg {q : ℚ} (h : 0 ≤ q) : 0 ≤ jsRound q := by
  unfold jsRound
  have : (0 : ℚ) ≤ q + 1/2 := by linarith
  exact Int.le_floor.mpr (by exact_mod_cast this)

theorem jsRound_le_100 {q : ℚ} (h : q ≤ 100) : jsRound q ≤ 100 := by
  unfold jsRound
  have h1 : ⌊q + 1/2⌋ ≤ ⌊(201/2 : ℚ)⌋ := Int.floor_le_floor (by linarith)
  have h2 : ⌊(201/2 : ℚ)⌋ = 100 := by norm_num [Int.floor_eq_iff]
  omega

theorem jsRound_zero : jsRound 0 = 0 := by
  unfold jsRound; norm_num [Int.floor_eq_iff]

/-- An always-present integer score in `[0, 100]`. -/
def scoreValid (o : Option ℤ) : Prop := ∃ n, o = some n ∧ 0 ≤ n ∧ n ≤ 100

theorem scoreValid_some {n : ℤ} (h0 : 0 ≤ n) (h100 : n ≤ 100) :
    scoreValid (some n) := ⟨n, rfl, h0, h100⟩

/-- Sum bounds for a list of per-point scores in `[0, 100]`. -/
theorem list_sum_score_bounds (l : List ℤ) (h : ∀ x ∈ l, 0 ≤ x ∧ x ≤ 100) :
    0 ≤ l.sum ∧ l.sum ≤ 100 * l.length := by
  induction l with
  | nil => simp
  | cons a t ih =>
      have ha := h a (by simp)
      have ht := ih (fun x hx => h x (by simp [hx]))
      simp only [List.sum_cons, List.length_cons]
      constructor
      · linarith [ha.1, ht.1]
      · push_cast
        linarith [ha.2, ht.2]

/-- The rounded average of a nonempty list of scores in `[0, 100]` is a
valid score. -/
theorem avg_score_valid (l : List ℤ) (hne : l ≠ [])
    (h : ∀ x ∈ l, 0 ≤ x ∧ x ≤ 100) :
    0 ≤ jsRound ((l.sum : ℚ) / (l.length : ℚ)) ∧
    jsRound ((l.sum : ℚ) / (l.length : ℚ)) ≤ 100 := by
  obtain ⟨hs0, hs100⟩ := list_sum_score_bounds l h
  have hlen : 0 < (l.length : ℚ) := by
    have : 0 < l.length := List.length_pos.mpr hne
    exact_mod_cast this
  have h0 : (0 : ℚ) ≤ (l.sum : ℚ) / (l.length : ℚ) :=
    div_nonneg (by exact_mod_cast hs0) (le_of_lt hlen)
  have h100 : (l.sum : ℚ) / (l.length : ℚ) ≤ 100 := by
    rw [div_le_iff₀ hlen]
    have : (l.sum : ℚ) ≤ 100 * (l.length : ℚ) := by exact_mod_cast hs100
    linarith
  exact ⟨jsRound_nonneg h0, jsRound_le_100 h100⟩

end VoyageRisk

namespace RiskEngine

open VoyageRisk

theorem simPoints_nonneg (zones : List Zone) (rand : ℕ → ℚ)
    (hr : RandValid rand) (i : ℕ) (l : List Waypoint) :
    0 ≤ simPoints zones rand i l := by
  induction l generalizing i with
  | nil => simp [simPoints]
  | cons wp rest ih =>
      simp only [simPoints]
      have hri := (hr i).1
      have hrest := ih (i + 1)
      split <;> nlinarith

theorem simPoints_le (zones : List Zone) (rand : ℕ → ℚ)
    (hr : RandValid rand) (i : ℕ) (l : List Waypoint) :
    simPoints zones rand i l ≤ 2 * l.length := by
  induction l generalizing i with
  | nil => simp [simPoints]
  | cons wp rest ih =>
      simp only [simPoints, List.length_cons]
      have hri0 := (hr i).1
      have hri1 := (hr i).2
      have hrest := ih (i + 1)
      push_cast
      split <;> nlinarith

/-- In-zone points contribute exactly `2`, independent of the random
stream. -/
theorem simPoints_all_in_zone (zones : List Zone) (rand : ℕ → ℚ)
    (i : ℕ) (l : List Waypoint)
    (h : ∀ wp ∈ l, zones.any (fun zone => isInZone wp.latitude wp.longitude zone) = true) :
    simPoints zones rand i l = 2 * l.length := by
  induction l generalizing i with
  | nil => simp [simPoints]
  | cons wp rest ih =>
      have hwp := h wp (by simp)
      have hrest := ih (i + 1) (fun x hx => h x (by simp [hx]))
      simp only [simPoints, hwp, if_pos, List.length_cons]
      rw [hrest]
      push_cast
      ring

/-- The simulated estimator on a nonempty route with a well-formed random
stream always yields an integer in `[0, 100]`. -/
theorem calculateSimulatedRisk_valid (waypoints : List Waypoint)
    (zones : List Zone) (rand : ℕ → ℚ)
    (hne : waypoints ≠ []) (hr : RandValid rand) :
    scoreValid (calculateSimulatedRisk waypoints zones rand) := by
  unfold calculateSimulatedRisk
  have hlen : waypoints.length ≠ 0 := by
    simpa [List.length_eq_zero] using hne
  simp only [hlen, if_false]
  set riskPoints := simPoints zones rand 0 waypoints with hrp
  have hlenQ : (0 : ℚ) < (waypoints.length : ℚ) * 2 := by
    have : 0 < waypoints.length := Nat.pos_of_ne_zero hlen
    have : (0 : ℚ) < (waypoints.length : ℚ) := by exact_mod_cast this
    linarith
  have h0 : 0 ≤ riskPoints := simPoints_nonneg zones rand hr 0 waypoints
  have h2N : riskPoints ≤ 2 * waypoints.length := simPoints_le zones rand hr 0 waypoints
  have havg0 : (0 : ℚ) ≤ riskPoints / ((waypoints.length : ℚ) * 2) * 100 := by
    have := div_nonneg h0 (le_of_lt hlenQ)
    linarith
  have havg100 : riskPoints / ((waypoints.length : ℚ) * 2) * 100 ≤ 100 := by
    have hdiv : riskPoints / ((waypoints.length : ℚ) * 2) ≤ 1 := by
      rw [div_le_one hlenQ]
      linarith
    nlinarith
  refine ⟨min (jsRound (riskPoints / ((waypoints.length : ℚ) * 2) * 100)) 100, rfl, ?_, ?_⟩
  · exact le_min (jsRound_nonneg havg0) (by norm_num)
  · exact min_le_right _ _

end RiskEngine

/-! ## Provider bounds -/

namespace WeatherService

open VoyageRisk

/-- A physically sensible reading: all fields nonnegative. -/
def WDNonneg (w : WeatherData) : Prop :=
  0 ≤ w.wave_height ∧ 0 ≤ w.wind_wave_height ∧ 0 ≤ w.swell_wave_height ∧
  0 ≤ w.ocean_current_velocity ∧ 0 ≤ w.sea_surface_temperature

theorem calculateWeatherRisk_score_bounds (w : WeatherData) (hw : WDNonneg w) :
    0 ≤ (calculateWeatherRisk w).riskScore ∧ (calculateWeatherRisk w).riskScore ≤ 100 := by
  obtain ⟨h1, h2, _h3, h4, _h5⟩ := hw
  unfold calculateWeatherRisk
  simp only
  set waveRisk := min (w.wave_height / 4.0 * 100) 100 with hwr
  set windWaveRisk := min (w.wind_wave_height / 3.0 * 100) 100 with hwwr
  set currentRisk := min (w.ocean_current_velocity / 15.0 * 100) 100 with hcr
  have hwave : 0 ≤ waveRisk ∧ waveRisk ≤ 100 :=
    ⟨le_min (by positivity) (by norm_num), min_le_right _ _⟩
  have hwind : 0 ≤ windWaveRisk ∧ windWaveRisk ≤ 100 :=
    ⟨le_min (by positivity) (by norm_num), min_le_right _ _⟩
  have hcur : 0 ≤ currentRisk ∧ currentRisk ≤ 100 :=
    ⟨le_min (by positivity) (by norm_num), min_le_right _ _⟩
  set m : ℚ := if w.swell_wave_height > 2.0 then 1.2 else 1.0 with hm
  have hm0 : 0 < m := by
    rw [hm]; split <;> norm_num
  have harg0 : 0 ≤ (waveRisk * 0.4 + windWaveRisk * 0.4 + currentRisk * 0.2) * m := by
    have := hwave.1; have := hwind.1; have := hcur.1
    nlinarith
  exact ⟨jsRound_nonneg (le_min harg0 (by norm_num)), jsRound_le_100 (min_le_right _ _)⟩

/-- Every successful per-point result of `getWeatherRisk` under a
nonnegative-payload oracle has a score in `[0, 100]`. -/
theorem getWeatherRisk_score_bounds (oracle : FetchOracle) (lat lng : ℚ)
    (hnn : ∀ raw, oracle lat lng = some raw → RiskEngine.RawNonneg raw)
    (r : WeatherRiskResult) (h : getWeatherRisk oracle lat lng = some r) :
    0 ≤ r.riskScore ∧ r.riskScore ≤ 100 := by
  unfold getWeatherRisk fetchMarineWeather at h
  cases horacle : oracle lat lng with
  | none => rw [horacle] at h; simp at h
  | some raw =>
      rw [horacle] at h
      simp only [Option.some.injEq] at h
      obtain ⟨n1, n2, n3, n4, n5⟩ := hnn raw horacle
      have hwd : WDNonneg
          { wave_height := raw.wave_height.getD 0
            wind_wave_height := raw.wind_wave_height.getD 0
            swell_wave_height := raw.swell_wave_height.getD 0
            ocean_current_velocity := raw.ocean_current_velocity.getD 0
            sea_surface_temperature := raw.sea_surface_temperature.getD 0 } := by
        refine ⟨?_, ?_, ?_, ?_, ?_⟩ <;> simp only
        · cases hx : raw.wave_height with
          | none => simp [Option.getD]
          | some x => simpa [Option.getD] using n1 x hx
        · cases hx : raw.wind_wave_height with
          | none => simp [Option.getD]
          | some x => simpa [Option.getD] using n2 x hx
        · cases hx : raw.swell_wave_height with
          | none => simp [Option.getD]
          | some x => simpa [Option.getD] using n3 x hx
        · cases hx : raw.ocean_current_velocity with
          | none => simp [Option.getD]
          | some x => simpa [Option.getD] using n4 x hx
        · cases hx : raw.sea_surface_temperature with
          | none => simp [Option.getD]
          | some x => simpa [Option.getD] using n5 x hx
      have hb := calculateWeatherRisk_score_bounds _ hwd
      rw [← h]
      exact hb

/-- If the route weather provider returns a score, it is in `[0, 100]`. -/
theorem getRouteWeatherRisk_bounds (oracle : FetchOracle)
    (waypoints : List Waypoint)
    (hnn : ∀ lat lng raw, oracle lat lng = some raw → RiskEngine.RawNonneg raw)
    (r : ℤ) (h : (getRouteWeatherRisk oracle waypoints).1 = some r) :
    0 ≤ r ∧ r ≤ 100 := by
  unfold getRouteWeatherRisk at h
  by_cases hlen : waypoints.length = 0
  · simp [hlen] at h
  · simp only [hlen, if_false] at h
    set sampled := sampleWaypoints waypoints 5 with hs
    set validResults :=
      (sampled.map (fun wp => getWeatherRisk oracle wp.latitude wp.longitude)).filterMap id
      with hv
    by_cases hvr : validResults.length = 0
    · simp [hvr] at h
    · simp only [hvr, if_false, Option.some.injEq] at h
      have hmem : ∀ x ∈ validResults, 0 ≤ x.riskScore ∧ x.riskScore ≤ 100 := by
        intro x hx
        rw [hv] at hx
        obtain ⟨o, ho, hox⟩ := List.mem_filterMap.mp hx
        obtain ⟨wp, _hwp, hwpo⟩ := List.mem_map.mp ho
        simp only [id] at hox
        subst hox
        exact getWeatherRisk_score_bounds oracle wp.latitude wp.longitude
          (hnn wp.latitude wp.longitude) x hwpo
      have hne : validResults.map (·.riskScore) ≠ [] := by
        intro hcon
        have hlc := congrArg List.length hcon
        simp at hlc
        exact hvr (by simp [hlc])
      have hb : ∀ x ∈ validResults.map (·.riskScore), 0 ≤ x ∧ x ≤ 100 := by
        intro x hx
        obtain ⟨y, hy, hyx⟩ := List.mem_map.mp hx
        subst hyx
        exact hmem y hy
      have havg := avg_score_valid (validResults.map (·.riskScore)) hne hb
      rw [List.length_map] at havg
      rw [← h]
      exact havg

end WeatherService

namespace TrafficService

open VoyageRisk

theorem densityRiskScore_bounds (d : ℚ) (hd : 0 ≤ d) :
    0 ≤ densityRiskScore d ∧ densityRiskScore d ≤ 100 := by
  unfold densityRiskScore
  split
  · refine ⟨le_min (by positivity) (by norm_num), ?_⟩
    calc min (d * 1000) 20 ≤ 20 := min_le_right _ _
      _ ≤ 100 := by norm_num
  · split
    · rename_i h1 h2
      push_neg at h1
      have he : (d - 1e-2) / 4e-2 * 30 = (d - 1e-2) * 750 := by ring
      rw [he]
      constructor <;> nlinarith
    · split
      · rename_i h1 h2 h3
        push_neg at h1 h2
        have he : (d - 5e-2) / 5e-2 * 30 = (d - 5e-2) * 600 := by ring
        rw [he]
        constructor <;> nlinarith
      · rename_i h1 h2 h3
        push_neg at h1 h2 h3
        exact ⟨le_min (by nlinarith) (by norm_num), min_le_right _ _⟩

/-- Every successful per-point result of `getVesselDensity` has a score
in `[0, 100]`. -/
theorem getVesselDensity_score_bounds (lat lng : ℚ) (apiKey : Option String)
    (oracle : SessionOracle) (r : TrafficRiskResult)
    (h : (getVesselDensity lat lng apiKey oracle).1 = some r) :
    0 ≤ r.riskScore ∧ r.riskScore ≤ 100 := by
  unfold getVesselDensity at h
  by_cases hk : keyPresent apiKey
  · simp only [hk, Bool.not_true, Bool.false_eq_true, if_false] at h
    cases horacle : oracle lat lng with
    | none => rw [horacle] at h; simp at h
    | some count =>
        rw [horacle] at h
        simp only [Option.some.injEq] at h
        have hd : (0 : ℚ) ≤ (count : ℚ) / calculateBboxArea 0.5 := by
          unfold calculateBboxArea
          positivity
        obtain ⟨hb0, hb100⟩ := densityRiskScore_bounds _ hd
        rw [← h]
        exact ⟨jsRound_nonneg hb0, jsRound_le_100 hb100⟩
  · simp [hk] at h

/-- Every result collected by the sequential per-waypoint loop comes from
a successful `getVesselDensity` call on a waypoint of the list. -/
theorem trafficLoop_mem (apiKey : Option String) (oracle : SessionOracle)
    (l : List Waypoint) (x : TrafficRiskResult)
    (hx : x ∈ (trafficLoop apiKey oracle l).1) :
    ∃ wp ∈ l, (getVesselDensity wp.latitude wp.longitude apiKey oracle).1 = some x := by
  induction l with
  | nil => simp [trafficLoop] at hx
  | cons wp rest ih =>
      simp only [trafficLoop] at hx
      rcases hr : (getVesselDensity wp.latitude wp.longitude apiKey oracle).1 with _ | v
      · rw [hr] at hx
        simp only at hx
        obtain ⟨wp2, hwp2, hres⟩ := ih hx
        exact ⟨wp2, by simp [hwp2], hres⟩
      · rw [hr] at hx
        simp only [List.mem_cons] at hx
        rcases hx with hx | hx
        · exact ⟨wp, by simp, by rw [hr, hx]⟩
        · obtain ⟨wp2, hwp2, hres⟩ := ih hx
          exact ⟨wp2, by simp [hwp2], hres⟩

/-- If the route traffic provider returns a score, it is in `[0, 100]`. -/
theorem getRouteTrafficRisk_bounds (waypoints : List Waypoint)
    (apiKey : Option String) (oracle : SessionOracle)
    (r : ℤ) (h : (getRouteTrafficRisk waypoints apiKey oracle).1 = some r) :
    0 ≤ r ∧ r ≤ 100 := by
  unfold getRouteTrafficRisk at h
  by_cases hlen : waypoints.length = 0
  · simp [hlen] at h
  · by_cases hk : keyPresent apiKey
    · simp only [hlen, hk, Bool.not_true, Bool.false_eq_true, if_false] at h
      set loop := trafficLoop apiKey oracle (sampleWaypoints waypoints 3) with hloop
      by_cases hres : loop.1.length = 0
      · simp [hres] at h
      · simp only [hres, if_false, Option.some.injEq] at h
        have hmem : ∀ x ∈ loop.1, 0 ≤ x.riskScore ∧ x.riskScore ≤ 100 := by
          intro x hx
          obtain ⟨wp, _hwp, hr⟩ := trafficLoop_mem apiKey oracle _ x (hloop ▸ hx)
          exact getVesselDensity_score_bounds wp.latitude wp.longitude apiKey oracle x hr
        have hne : loop.1.map (·.riskScore) ≠ [] := by
          intro hcon
          have hlc := congrArg List.length hcon
          simp at hlc
          exact hres (by simp [hlc])
        have hb : ∀ x ∈ loop.1.map (·.riskScore), 0 ≤ x ∧ x ≤ 100 := by
          intro x hx
          obtain ⟨y, hy, hyx⟩ := List.mem_map.mp hx
          subst hyx
          exact hmem y hy
        have havg := avg_score_valid (loop.1.map (·.riskScore)) hne hb
        rw [List.length_map] at havg
        rw [← h]
        exact havg
    · simp [hlen, hk] at h

end TrafficService

/-! ## Factor and aggregator bounds -/

namespace RiskEngine

open VoyageRisk WeatherService TrafficService

theorem calculateWeatherRisk_factor_valid (env : Env) (waypoints : List Waypoint)
    (hne : waypoints ≠ []) (henv : EnvValid env) :
    scoreValid (calculateWeatherRisk env waypoints).1 := by
  unfold calculateWeatherRisk
  rcases hreal : (getRouteWeatherRisk env.weatherFetch waypoints).1 with _ | r
  · simp only [hreal]
    exact calculateSimulatedRisk_valid waypoints HIGH_RISK_ZONES.weather env.randWeather
      hne henv.1
  · simp only [hreal]
    obtain ⟨h0, h100⟩ := getRouteWeatherRisk_bounds env.weatherFetch waypoints
      henv.2.2.2.2 r hreal
    exact scoreValid_some h0 h100

theorem calculateTrafficRisk_factor_valid (env : Env) (waypoints : List Waypoint)
    (hne : waypoints ≠ []) (henv : EnvValid env) :
    scoreValid (calculateTrafficRisk env waypoints).1 := by
  unfold calculateTrafficRisk
  by_cases hk : keyPresent env.aisKey
  · simp only [hk, Bool.not_true, Bool.false_eq_true, if_false]
    rcases hreal : (getRouteTrafficRisk waypoints env.aisKey env.trafficFetch).1 with _ | r
    · simp only [hreal]
      exact calculateSimulatedRisk_valid waypoints HIGH_RISK_ZONES.traffic env.randTraffic
        hne henv.2.2.1
    · simp only [hreal]
      obtain ⟨h0, h100⟩ := getRouteTrafficRisk_bounds waypoints env.aisKey
        env.trafficFetch r hreal
      exact scoreValid_some h0 h100
  · simp only [hk, Bool.not_false, if_true]
    exact calculateSimulatedRisk_valid waypoints HIGH_RISK_ZONES.traffic env.randTraffic
      hne henv.2.2.1

theorem calculatePiracyRisk_factor_valid (env : Env) (waypoints : List Waypoint)
    (hne : waypoints ≠ []) (henv : EnvValid env) :
    scoreValid (calculatePiracyRisk env waypoints).1 :=
  calculateSimulatedRisk_valid waypoints HIGH_RISK_ZONES.piracy env.randPiracy
    hne henv.2.1

theorem calculateClaimsRisk_factor_valid (env : Env) (waypoints : List Waypoint)
    (hne : waypoints ≠ []) (henv : EnvValid env) :
    scoreValid (calculateClaimsRisk env waypoints).1 :=
  calculateSimulatedRisk_valid waypoints HIGH_RISK_ZONES.claims env.randClaims
    hne henv.2.2.2.1

theorem weightedOverall_valid {w p t c : Option ℤ}
    (hw : scoreValid w) (hp : scoreValid p) (ht : scoreValid t) (hc : scoreValid c) :
    scoreValid (weightedOverall w p t c) := by
  obtain ⟨wv, hweq, hw0, hw100⟩ := hw
  obtain ⟨pv, hpeq, hp0, hp100⟩ := hp
  obtain ⟨tv, hteq, ht0, ht100⟩ := ht
  obtain ⟨cv, hceq, hc0, hc100⟩ := hc
  subst hweq hpeq hteq hceq
  unfold weightedOverall
  refine scoreValid_some (jsRound_nonneg ?_) (jsRound_le_100 ?_)
  · have hws : (0:ℚ) ≤ (wv:ℚ) ∧ (0:ℚ) ≤ (pv:ℚ) ∧ (0:ℚ) ≤ (tv:ℚ) ∧ (0:ℚ) ≤ (cv:ℚ) :=
      ⟨by exact_mod_cast hw0, by exact_mod_cast hp0, by exact_mod_cast ht0,
       by exact_mod_cast hc0⟩
    obtain ⟨a, b, c, d⟩ := hws
    nlinarith
  · have hws : (wv:ℚ) ≤ 100 ∧ (pv:ℚ) ≤ 100 ∧ (tv:ℚ) ≤ 100 ∧ (cv:ℚ) ≤ 100 :=
      ⟨by exact_mod_cast hw100, by exact_mod_cast hp100, by exact_mod_cast ht100,
       by exact_mod_cast hc100⟩
    obtain ⟨a, b, c, d⟩ := hws
    nlinarith

/-- All five fields are present integers in `[0, 100]`. -/
def riskScoresValid (rs : RiskScores) : Prop :=
  scoreValid rs.overall ∧ scoreValid rs.weather ∧ scoreValid rs.piracy ∧
  scoreValid rs.traffic ∧ scoreValid rs.claims

theorem zeroScores_valid : riskScoresValid zeroScores := by
  refine ⟨?_, ?_, ?_, ?_, ?_⟩ <;> exact scoreValid_some (by norm_num) (by norm_num)

end RiskEngine

/-! ## Aggregator characterization -/

namespace RiskEngine

open VoyageRisk WeatherService TrafficService

/-- Unfolding of `calculateRouteRisk` on a nonempty route. -/
theorem calculateRouteRisk_nonempty (env : Env) (waypoints : List Waypoint)
    (h : waypoints.length ≠ 0) :
    calculateRouteRisk env waypoints =
      ({ overall := weightedOverall (calculateWeatherRisk env waypoints).1
           (calculatePiracyRisk env waypoints).1 (calculateTrafficRisk env waypoints).1
           (calculateClaimsRisk env waypoints).1
         weather := (calculateWeatherRisk env waypoints).1
         piracy := (calculatePiracyRisk env waypoints).1
         traffic := (calculateTrafficRisk env waypoints).1
         claims := (calculateClaimsRisk env waypoints).1 },
       (calculateWeatherRisk env waypoints).2 ++ (calculatePiracyRisk env waypoints).2 ++
       (calculateTrafficRisk env waypoints).2 ++ (calculateClaimsRisk env waypoints).2) := by
  unfold calculateRouteRisk
  rw [if_neg h]

/-- Unfolding of the sync `Seed.calculateRouteRisk` on a nonempty route. -/
theorem seed_calculateRouteRisk_nonempty (waypoints : List Waypoint)
    (randWeather randPiracy randTraffic randClaims : ℕ → ℚ)
    (h : waypoints.length ≠ 0) :
    Seed.calculateRouteRisk waypoints randWeather randPiracy randTraffic randClaims =
      { overall := weightedOverall
          (Seed.calculateFactorRisk waypoints HIGH_RISK_ZONES.weather randWeather)
          (Seed.calculateFactorRisk waypoints HIGH_RISK_ZONES.piracy randPiracy)
          (Seed.calculateFactorRisk waypoints HIGH_RISK_ZONES.traffic randTraffic)
          (Seed.calculateFactorRisk waypoints HIGH_RISK_ZONES.claims randClaims)
        weather := Seed.calculateFactorRisk waypoints HIGH_RISK_ZONES.weather randWeather
        piracy := Seed.calculateFactorRisk waypoints HIGH_RISK_ZONES.piracy randPiracy
        traffic := Seed.calculateFactorRisk waypoints HIGH_RISK_ZONES.traffic randTraffic
        claims := Seed.calculateFactorRisk waypoints HIGH_RISK_ZONES.claims randClaims } := by
  unfold Seed.calculateRouteRisk
  rw [if_neg h]

end RiskEngine

/-! ## More evaluation helpers -/

namespace VoyageRisk

theorem jsRound_100 : jsRound 100 = 100 := by
  unfold jsRound; norm_num [Int.floor_eq_iff]

/-- Scaling a unit-clamped quantity by 100 commutes with clamping at 100. -/
theorem min_one_mul_hundred (x : ℚ) : min x 1 * 100 = min (x * 100) 100 := by
  rcases le_total x 1 with h | h
  · rw [min_eq_left h, min_eq_left (by nlinarith)]
  · rw [min_eq_right h, min_eq_right (by nlinarith)]
    norm_num

end VoyageRisk

namespace RiskEngine

open VoyageRisk WeatherService TrafficService

/-- A concrete environment in which every external source fails and every
random draw is `0`; used to instantiate the universally quantified
theorems below. -/
def witnessEnv : Env where
  weatherFetch := fun _ _ => none
  aisKey := none
  trafficFetch := fun _ _ => none
  randWeather := fun _ => 0
  randPiracy := fun _ => 0
  randTraffic := fun _ => 0
  randClaims := fun _ => 0

theorem witnessEnv_valid : EnvValid witnessEnv := by
  refine ⟨?_, ?_, ?_, ?_, ?_⟩
  · intro i; norm_num [witnessEnv]
  · intro i; norm_num [witnessEnv]
  · intro i; norm_num [witnessEnv]
  · intro i; norm_num [witnessEnv]
  · intro lat lng raw h
    exact absurd h (by simp [witnessEnv])

end RiskEngine

/-! ## Claims -/

namespace RiskEngine

open VoyageRisk WeatherService TrafficService

/-- C1: for every waypoint list (any mix of external and simulated
sources, i.e. any well-formed environment), every one of the five fields
of the `RiskScores` returned by `calculateRouteRisk` is a present integer
in `[0, 100]`. -/
theorem calculateRouteRisk_bounds (env : Env) (waypoints : List Waypoint)
    (henv : EnvValid env) :
    riskScoresValid (calculateRouteRisk env waypoints).1 := by
  rcases hw : waypoints with _ | ⟨wp, rest⟩
  · exact zeroScores_valid
  · have hne : wp :: rest ≠ [] := by simp
    rw [calculateRouteRisk_nonempty env (wp :: rest) (by simp)]
    have hwf := calculateWeatherRisk_factor_valid env (wp :: rest) hne henv
    have hpf := calculatePiracyRisk_factor_valid env (wp :: rest) hne henv
    have htf := calculateTrafficRisk_factor_valid env (wp :: rest) hne henv
    have hcf := calculateClaimsRisk_factor_valid env (wp :: rest) hne henv
    exact ⟨weightedOverall_valid hwf hpf htf hcf, hwf, hpf, htf, hcf⟩

/-- Witness for C1 at a concrete route and environment. -/
theorem calculateRouteRisk_bounds_witness :
    riskScoresValid (calculateRouteRisk witnessEnv [⟨7, 50⟩]).1 :=
  calculateRouteRisk_bounds witnessEnv [⟨7, 50⟩] witnessEnv_valid

/-- C2: in every `RiskScores` returned by `calculateRouteRisk` (async
engine) or by the sync seed calculator, the `overall` field equals the
weighted rounding `round(0.25*weather + 0.35*piracy + 0.2*traffic +
0.2*claims)` recomputed post-hoc from the four sub-score fields of that
same record. -/
theorem calculateRouteRisk_overall_weighted (env : Env) (waypoints : List Waypoint)
    (randWeather randPiracy randTraffic randClaims : ℕ → ℚ) :
    ((calculateRouteRisk env waypoints).1).overall =
      weightedOverall ((calculateRouteRisk env waypoints).1).weather
        ((calculateRouteRisk env waypoints).1).piracy
        ((calculateRouteRisk env waypoints).1).traffic
        ((calculateRouteRisk env waypoints).1).claims ∧
    (Seed.calculateRouteRisk waypoints randWeather randPiracy randTraffic randClaims).overall =
      weightedOverall
        (Seed.calculateRouteRisk waypoints randWeather randPiracy randTraffic randClaims).weather
        (Seed.calculateRouteRisk waypoints randWeather randPiracy randTraffic randClaims).piracy
        (Seed.calculateRouteRisk waypoints randWeather randPiracy randTraffic randClaims).traffic
        (Seed.calculateRouteRisk waypoints randWeather randPiracy randTraffic randClaims).claims := by
  rcases waypoints with _ | ⟨wp, rest⟩
  · constructor
    · show (zeroScores.overall) = weightedOverall zeroScores.weather zeroScores.piracy
        zeroScores.traffic zeroScores.claims
      simp only [zeroScores, weightedOverall]
      norm_num [jsRound_zero]
    · show (zeroScores.overall) = weightedOverall zeroScores.weather zeroScores.piracy
        zeroScores.traffic zeroScores.claims
      simp only [zeroScores, weightedOverall]
      norm_num [jsRound_zero]
  · rw [calculateRouteRisk_nonempty env (wp :: rest) (by simp),
      seed_calculateRouteRisk_nonempty (wp :: rest) randWeather randPiracy randTraffic
        randClaims (by simp)]
    exact ⟨rfl, rfl⟩

/-- C4: on the empty waypoint list both risk calculators return exactly
the all-zero `RiskScores`, and the async engine performs no external or
simulated call at all (empty call trace). -/
theorem calculateRouteRisk_empty (env : Env)
    (randWeather randPiracy randTraffic randClaims : ℕ → ℚ) :
    calculateRouteRisk env [] =
      ({ overall := some 0, weather := some 0, piracy := some 0,
         traffic := some 0, claims := some 0 }, []) ∧
    Seed.calculateRouteRisk [] randWeather randPiracy randTraffic randClaims =
      { overall := some 0, weather := some 0, piracy := some 0,
        traffic := some 0, claims := some 0 } :=
  ⟨rfl, rfl⟩

/-- C5 counterexample: on zero waypoints the simulated estimator does
not return `0` — the `0/0` normalisation yields JS `NaN` (modelled
`none`), in both the engine and the seed copy. -/
theorem calculateSimulatedRisk_empty_counterexample :
    calculateSimulatedRisk [] [] (fun _ => 0) = none ∧
    calculateSimulatedRisk [] [] (fun _ => 0) ≠ some 0 ∧
    Seed.calculateFactorRisk [] [] (fun _ => 0) = none :=
  ⟨rfl, show (none : Option ℤ) ≠ some 0 by simp, rfl⟩

/-- C5 amended: the estimator has no zero-waypoint special case — on an
empty list the division by `2 * 0` produces `NaN` (`none`), never the
integer `0`; the zero-waypoint guard lives in `calculateRouteRisk`, which
returns the all-zero record without invoking any estimator. -/
theorem calculateSimulatedRisk_empty_nan (zones : List Zone) (rand : ℕ → ℚ)
    (env : Env) :
    calculateSimulatedRisk [] zones rand = none ∧
    Seed.calculateFactorRisk [] zones rand = none ∧
    calculateRouteRisk env [] = (zeroScores, []) :=
  ⟨rfl, rfl, rfl⟩

/-- C10: if every waypoint of a nonempty route lies in at least one zone
of the factor's zone list, the simulated estimator returns exactly `100`,
for every random stream (the jitter is never drawn for in-zone points). -/
theorem calculateSimulatedRisk_all_in_zone (waypoints : List Waypoint)
    (zones : List Zone) (rand : ℕ → ℚ) (hne : waypoints ≠ [])
    (hz : ∀ wp ∈ waypoints,
      zones.any (fun zone => isInZone wp.latitude wp.longitude zone) = true) :
    calculateSimulatedRisk waypoints zones rand = some 100 := by
  unfold calculateSimulatedRisk
  have hlen : waypoints.length ≠ 0 := by
    simpa [List.length_eq_zero] using hne
  simp only [hlen, if_false]
  rw [simPoints_all_in_zone zones rand 0 waypoints hz]
  have hlenQ : (waypoints.length : ℚ) ≠ 0 := by
    exact_mod_cast hlen
  have havg : 2 * (waypoints.length : ℚ) / ((waypoints.length : ℚ) * 2) * 100 = 100 := by
    field_simp
    ring
  rw [havg, jsRound_100]
  simp

/-- Witness for C10: a single waypoint in the Gulf-of-Aden piracy zone. -/
theorem calculateSimulatedRisk_all_in_zone_witness :
    calculateSimulatedRisk [⟨7, 50⟩] HIGH_RISK_ZONES.piracy (fun _ => 0) = some 100 :=
  calculateSimulatedRisk_all_in_zone [⟨7, 50⟩] HIGH_RISK_ZONES.piracy (fun _ => 0)
    (by simp) (by intro wp hwp; simp at hwp; subst hwp; decide)

end RiskEngine

namespace WeatherService

open VoyageRisk

/-- C9: the per-reading weather score equals the spec formula
`round(min((0.4*min(h/4,1)*100 + 0.4*min(hw/3,1)*100 + 0.2*min(v/15,1)*100) * m, 100))`
with `m = 1.2` iff the swell height exceeds `2.0`. -/
theorem calculateWeatherRisk_formula (w : WeatherData) :
    (calculateWeatherRisk w).riskScore =
      jsRound (min ((0.4 * min (w.wave_height / 4) 1 * 100 +
                     0.4 * min (w.wind_wave_height / 3) 1 * 100 +
                     0.2 * min (w.ocean_current_velocity / 15) 1 * 100) *
                    (if w.swell_wave_height > 2 then 1.2 else 1)) 100) := by
  unfold calculateWeatherRisk
  simp only
  congr 1
  have h1 : (0.4:ℚ) * min (w.wave_height / 4) 1 * 100 =
      0.4 * (min (w.wave_height / 4) 1 * 100) := by ring
  have h2 : (0.4:ℚ) * min (w.wind_wave_height / 3) 1 * 100 =
      0.4 * (min (w.wind_wave_height / 3) 1 * 100) := by ring
  have h3 : (0.2:ℚ) * min (w.ocean_current_velocity / 15) 1 * 100 =
      0.2 * (min (w.ocean_current_velocity / 15) 1 * 100) := by ring
  rw [h1, h2, h3, min_one_mul_hundred, min_one_mul_hundred, min_one_mul_hundred]
  have h4 : (4.0 : ℚ) = 4 := by norm_num
  have h5 : (3.0 : ℚ) = 3 := by norm_num
  have h6 : (15.0 : ℚ) = 15 := by norm_num
  have h7 : (2.0 : ℚ) = 2 := by norm_num
  have h8 : (1.0 : ℚ) = 1 := by norm_num
  rw [h4, h5, h6, h7, h8]
  congr 1
  ring

end WeatherService

/-! ## Fallback and call-trace lemmas -/

namespace WeatherService

open VoyageRisk

theorem getWeatherRisk_eq_none_iff (oracle : FetchOracle) (lat lng : ℚ) :
    getWeatherRisk oracle lat lng = none ↔ oracle lat lng = none := by
  unfold getWeatherRisk fetchMarineWeather
  cases h : oracle lat lng <;> simp [h]

/-- If every fetch fails, the route weather provider is unavailable. -/
theorem getRouteWeatherRisk_all_fail (oracle : FetchOracle)
    (waypoints : List Waypoint)
    (hfail : ∀ lat lng, oracle lat lng = none) :
    (getRouteWeatherRisk oracle waypoints).1 = none := by
  unfold getRouteWeatherRisk
  by_cases hlen : waypoints.length = 0
  · simp [hlen]
  · simp only [hlen, if_false]
    have hval : ((sampleWaypoints waypoints 5).map
        (fun wp => getWeatherRisk oracle wp.latitude wp.longitude)).filterMap id = [] := by
      rw [List.filterMap_eq_nil_iff]
      intro x hx
      obtain ⟨wp, _, hwp⟩ := List.mem_map.mp hx
      subst hwp
      exact (getWeatherRisk_eq_none_iff oracle wp.latitude wp.longitude).mpr
        (hfail wp.latitude wp.longitude)
    simp [hval]

/-- The weather provider's trace is one HTTP fetch per sampled waypoint. -/
theorem getRouteWeatherRisk_events (oracle : FetchOracle)
    (waypoints : List Waypoint) :
    (getRouteWeatherRisk oracle waypoints).2 =
      if waypoints.length = 0 then []
      else (sampleWaypoints waypoints 5).map
        (fun wp => CallEvent.weatherHttpFetch wp.latitude wp.longitude) := by
  unfold getRouteWeatherRisk
  by_cases hlen : waypoints.length = 0
  · simp [hlen]
  · simp only [hlen, if_false]
    set validResults := ((sampleWaypoints waypoints 5).map
        (fun wp => getWeatherRisk oracle wp.latitude wp.longitude)).filterMap id with hv
    by_cases hvr : validResults.length = 0 <;> simp [hvr]

end WeatherService

namespace TrafficService

open VoyageRisk

/-- If every session errors, the sequential loop collects nothing. -/
theorem trafficLoop_all_fail (apiKey : Option String) (oracle : SessionOracle)
    (l : List Waypoint) (hfail : ∀ lat lng, oracle lat lng = none) :
    (trafficLoop apiKey oracle l).1 = [] := by
  induction l with
  | nil => rfl
  | cons wp rest ih =>
      have hgv : (getVesselDensity wp.latitude wp.longitude apiKey oracle).1 = none := by
        unfold getVesselDensity
        by_cases hk : keyPresent apiKey
        · simp [hk, hfail]
        · simp [hk]
      simp only [trafficLoop]
      rcases hgv2 : getVesselDensity wp.latitude wp.longitude apiKey oracle with ⟨r, events⟩
      have hr : r = none := by
        have := hgv
        rw [hgv2] at this
        exact this
      subst hr
      simpa using ih

/-- If every session errors, the route traffic provider is unavailable. -/
theorem getRouteTrafficRisk_all_fail (waypoints : List Waypoint)
    (apiKey : Option String) (oracle : SessionOracle)
    (hfail : ∀ lat lng, oracle lat lng = none) :
    (getRouteTrafficRisk waypoints apiKey oracle).1 = none := by
  unfold getRouteTrafficRisk
  by_cases hlen : waypoints.length = 0
  · simp [hlen]
  · by_cases hk : keyPresent apiKey
    · simp only [hlen, hk, Bool.not_true, Bool.false_eq_true, if_false]
      rcases hloop : trafficLoop apiKey oracle (sampleWaypoints waypoints 3) with ⟨rs, events⟩
      have hrs : rs = [] := by
        have := trafficLoop_all_fail apiKey oracle (sampleWaypoints waypoints 3) hfail
        rw [hloop] at this
        exact this
      subst hrs
      simp
    · simp [hlen, hk]

end TrafficService

namespace RiskEngine

open VoyageRisk WeatherService TrafficService

/-- The weather factor never opens an AIS session. -/
theorem calculateWeatherRisk_no_ais (env : Env) (waypoints : List Waypoint)
    (lat lng : ℚ) :
    CallEvent.aisSession lat lng ∉ (calculateWeatherRisk env waypoints).2 := by
  unfold calculateWeatherRisk
  rcases hgw : getRouteWeatherRisk env.weatherFetch waypoints with ⟨realRisk, events⟩
  have hev : events = (getRouteWeatherRisk env.weatherFetch waypoints).2 := by
    rw [hgw]
  have hev2 : (getRouteWeatherRisk env.weatherFetch waypoints).2 =
      if waypoints.length = 0 then []
      else (sampleWaypoints waypoints 5).map
        (fun wp => CallEvent.weatherHttpFetch wp.latitude wp.longitude) :=
    getRouteWeatherRisk_events env.weatherFetch waypoints
  have hnomem : CallEvent.aisSession lat lng ∉ events := by
    rw [hev, hev2]
    by_cases hlen : waypoints.length = 0 <;> simp [hlen]
  rcases realRisk with _ | r <;> simp_all

/-- C3: when every external weather fetch and every external traffic
session fails, `calculateRouteRisk` on a nonempty route still returns a
complete `RiskScores` with all five fields present and in `[0, 100]`,
each externally-backed factor resolving to the simulated estimator inside
its own factor computation. -/
theorem calculateRouteRisk_total_fallback (env : Env) (waypoints : List Waypoint)
    (hne : waypoints ≠ []) (henv : EnvValid env)
    (hwfail : ∀ lat lng, env.weatherFetch lat lng = none)
    (htfail : ∀ lat lng, env.trafficFetch lat lng = none) :
    riskScoresValid (calculateRouteRisk env waypoints).1 ∧
    (calculateRouteRisk env waypoints).1.weather =
      calculateSimulatedRisk waypoints HIGH_RISK_ZONES.weather env.randWeather ∧
    (calculateRouteRisk env waypoints).1.piracy =
      calculateSimulatedRisk waypoints HIGH_RISK_ZONES.piracy env.randPiracy ∧
    (calculateRouteRisk env waypoints).1.traffic =
      calculateSimulatedRisk waypoints HIGH_RISK_ZONES.traffic env.randTraffic ∧
    (calculateRouteRisk env waypoints).1.claims =
      calculateSimulatedRisk waypoints HIGH_RISK_ZONES.claims env.randClaims := by
  have hlen : waypoints.length ≠ 0 := by
    simpa [List.length_eq_zero] using hne
  have hwfactor : (calculateWeatherRisk env waypoints).1 =
      calculateSimulatedRisk waypoints HIGH_RISK_ZONES.weather env.randWeather := by
    unfold calculateWeatherRisk
    rcases hgw : getRouteWeatherRisk env.weatherFetch waypoints with ⟨realRisk, events⟩
    have hnone : realRisk = none := by
      have := getRouteWeatherRisk_all_fail env.weatherFetch waypoints hwfail
      rw [hgw] at this
      exact this
    subst hnone
    rfl
  have htfactor : (calculateTrafficRisk env waypoints).1 =
      calculateSimulatedRisk waypoints HIGH_RISK_ZONES.traffic env.randTraffic := by
    unfold calculateTrafficRisk
    by_cases hk : keyPresent env.aisKey
    · simp only [hk, Bool.not_true, Bool.false_eq_true, if_false]
      rcases hgt : getRouteTrafficRisk waypoints env.aisKey env.trafficFetch with
        ⟨realRisk, events⟩
      have hnone : realRisk = none := by
        have := getRouteTrafficRisk_all_fail waypoints env.aisKey env.trafficFetch htfail
        rw [hgt] at this
        exact this
      subst hnone
      rfl
    · simp [hk]
  rw [calculateRouteRisk_nonempty env waypoints hlen]
  refine ⟨?_, hwfactor, rfl, htfactor, rfl⟩
  have hwf := calculateWeatherRisk_factor_valid env waypoints hne henv
  have hpf := calculatePiracyRisk_factor_valid env waypoints hne henv
  have htf := calculateTrafficRisk_factor_valid env waypoints hne henv
  have hcf := calculateClaimsRisk_factor_valid env waypoints hne henv
  exact ⟨weightedOverall_valid hwf hpf htf hcf, hwf, hpf, htf, hcf⟩

/-- Witness for C3 at a concrete route and all-failing environment. -/
theorem calculateRouteRisk_total_fallback_witness :
    riskScoresValid (calculateRouteRisk witnessEnv [⟨7, 50⟩]).1 ∧
    (calculateRouteRisk witnessEnv [⟨7, 50⟩]).1.weather =
      calculateSimulatedRisk [⟨7, 50⟩] HIGH_RISK_ZONES.weather witnessEnv.randWeather ∧
    (calculateRouteRisk witnessEnv [⟨7, 50⟩]).1.piracy =
      calculateSimulatedRisk [⟨7, 50⟩] HIGH_RISK_ZONES.piracy witnessEnv.randPiracy ∧
    (calculateRouteRisk witnessEnv [⟨7, 50⟩]).1.traffic =
      calculateSimulatedRisk [⟨7, 50⟩] HIGH_RISK_ZONES.traffic witnessEnv.randTraffic ∧
    (calculateRouteRisk witnessEnv [⟨7, 50⟩]).1.claims =
      calculateSimulatedRisk [⟨7, 50⟩] HIGH_RISK_ZONES.claims witnessEnv.randClaims :=
  calculateRouteRisk_total_fallback witnessEnv [⟨7, 50⟩] (by simp) witnessEnv_valid
    (fun _ _ => rfl) (fun _ _ => rfl)

/-- C7: with no AISstream credential configured, `getVesselDensity`
resolves Unavailable with no session opened, and `calculateRouteRisk` on a
nonempty route still produces the traffic sub-score from the simulated
estimator over the traffic zones — a present integer in `[0, 100]` — with
no AIS session anywhere in its call trace. -/
theorem trafficRisk_no_credential (env : Env) (waypoints : List Waypoint)
    (lat lng : ℚ) (oracle : TrafficService.SessionOracle)
    (hkey : env.aisKey = none) (hne : waypoints ≠ [])
    (hr : RandValid env.randTraffic) :
    getVesselDensity lat lng none oracle = (none, []) ∧
    (calculateRouteRisk env waypoints).1.traffic =
      calculateSimulatedRisk waypoints HIGH_RISK_ZONES.traffic env.randTraffic ∧
    scoreValid ((calculateRouteRisk env waypoints).1.traffic) ∧
    ∀ lat2 lng2, CallEvent.aisSession lat2 lng2 ∉ (calculateRouteRisk env waypoints).2 := by
  have hlen : waypoints.length ≠ 0 := by
    simpa [List.length_eq_zero] using hne
  have htfactor : calculateTrafficRisk env waypoints =
      (calculateSimulatedRisk waypoints HIGH_RISK_ZONES.traffic env.randTraffic,
       [CallEvent.simulated Factor.traffic]) := by
    unfold calculateTrafficRisk
    simp [hkey, keyPresent]
  refine ⟨rfl, ?_, ?_, ?_⟩
  · rw [calculateRouteRisk_nonempty env waypoints hlen]
    simp only [htfactor]
  · rw [calculateRouteRisk_nonempty env waypoints hlen]
    simp only [htfactor]
    exact calculateSimulatedRisk_valid waypoints HIGH_RISK_ZONES.traffic env.randTraffic
      hne hr
  · intro lat2 lng2
    rw [calculateRouteRisk_nonempty env waypoints hlen]
    simp only [htfactor, List.mem_append]
    push_neg
    refine ⟨⟨⟨?_, ?_⟩, ?_⟩, ?_⟩
    · exact calculateWeatherRisk_no_ais env waypoints lat2 lng2
    · simp [calculatePiracyRisk]
    · simp
    · simp [calculateClaimsRisk]

/-- Witness for C7 at a concrete route and credential-free environment. -/
theorem trafficRisk_no_credential_witness :
    getVesselDensity 3 103 none (fun _ _ => some 5) = (none, []) ∧
    (calculateRouteRisk witnessEnv [⟨3, 103⟩]).1.traffic =
      calculateSimulatedRisk [⟨3, 103⟩] HIGH_RISK_ZONES.traffic witnessEnv.randTraffic ∧
    scoreValid ((calculateRouteRisk witnessEnv [⟨3, 103⟩]).1.traffic) ∧
    ∀ lat2 lng2, CallEvent.aisSession lat2 lng2 ∉ (calculateRouteRisk witnessEnv [⟨3, 103⟩]).2 :=
  trafficRisk_no_credential witnessEnv [⟨3, 103⟩] 3 103 (fun _ _ => some 5) rfl
    (by simp) (fun i => by norm_num [witnessEnv])

end RiskEngine

namespace WeatherService

open VoyageRisk

/-- C6 counterexample: a 2xx payload with all fields missing is *not*
treated as a per-point failure — on a one-point route whose only fetch
returns such a payload, the provider counts the point as a successful
reading (defaulted to `0`) and returns `some 0` instead of the
Unavailable (`none`) the claim requires when zero waypoints produced a
successful reading. -/
theorem missingFields_not_dropped_counterexample :
    getRouteWeatherRisk (fun _ _ => some ⟨none, none, none, none, none⟩) [⟨0, 0⟩] =
      (some 0, [CallEvent.weatherHttpFetch 0 0]) ∧
    (getRouteWeatherRisk (fun _ _ => some ⟨none, none, none, none, none⟩) [⟨0, 0⟩]).1 ≠
      none := by
  constructor
  · unfold getRouteWeatherRisk
    simp [sampleWaypoints, List.enum, List.enumFrom, getWeatherRisk, fetchMarineWeather,
      calculateWeatherRisk, jsRound_zero]
  · unfold getRouteWeatherRisk
    simp [sampleWaypoints, List.enum, List.enumFrom, getWeatherRisk, fetchMarineWeather,
      calculateWeatherRisk, jsRound_zero]

/-- C6 amended: a fetch that yields a non-2xx response, a network error
or an unparsable body is dropped from the average, and the provider
returns Unavailable iff zero sampled waypoints produced a successful
*fetch*; a parsed 2xx payload with missing fields is not dropped — each
missing field defaults to `0` and the point counts as a successful
reading. -/
theorem getRouteWeatherRisk_unavailable_iff (oracle : FetchOracle)
    (waypoints : List Waypoint) (lat lng : ℚ) :
    ((getRouteWeatherRisk oracle waypoints).1 = none ↔
      ∀ wp ∈ sampleWaypoints waypoints 5, oracle wp.latitude wp.longitude = none) ∧
    fetchMarineWeather oracle lat lng = (oracle lat lng).map
      (fun raw => { wave_height := raw.wave_height.getD 0
                    wind_wave_height := raw.wind_wave_height.getD 0
                    swell_wave_height := raw.swell_wave_height.getD 0
                    ocean_current_velocity := raw.ocean_current_velocity.getD 0
                    sea_surface_temperature := raw.sea_surface_temperature.getD 0 }) := by
  constructor
  · unfold getRouteWeatherRisk
    by_cases hlen : waypoints.length = 0
    · have hnil : waypoints = [] := List.length_eq_zero.mp hlen
      subst hnil
      simp [sampleWaypoints]
    · simp only [hlen, if_false]
      set validResults := ((sampleWaypoints waypoints 5).map
        (fun wp => getWeatherRisk oracle wp.latitude wp.longitude)).filterMap id with hv
      by_cases hvr : validResults.length = 0
      · simp only [hvr, if_true]
        have hnilv : validResults = [] := List.length_eq_zero.mp hvr
        rw [hv, List.filterMap_eq_nil_iff] at hnilv
        constructor
        · intro _ wp hwp
          have hn := hnilv _ (List.mem_map.mpr ⟨wp, hwp, rfl⟩)
          simp only [id] at hn
          exact (getWeatherRisk_eq_none_iff oracle wp.latitude wp.longitude).mp hn
        · intro _
          trivial
      · simp only [hvr, if_false]
        constructor
        · intro hcon
          exact absurd hcon (by simp)
        · intro hall
          exfalso
          apply hvr
          rw [hv, List.length_eq_zero, List.filterMap_eq_nil_iff]
          intro x hx
          obtain ⟨wp, hwp, hwpx⟩ := List.mem_map.mp hx
          subst hwpx
          simp only [id]
          exact (getWeatherRisk_eq_none_iff oracle wp.latitude wp.longitude).mpr (hall wp hwp)
  · unfold fetchMarineWeather
    cases h : oracle lat lng <;> simp [h]

end WeatherService

namespace VoyageRisk

theorem enumFrom_filter_map_eq (k : ℕ) (l : List Waypoint) : ∀ (n : ℕ),
    ((List.enumFrom n l).filter (fun p => p.1 % k == 0)).map Prod.snd =
    ((List.range l.length).filter (fun i => (n + i) % k == 0)).filterMap
      (fun i => l[i]?) := by
  induction l with
  | nil => intro n; rfl
  | cons a l ih =>
      intro n
      rw [List.enumFrom_cons, List.length_cons, List.range_succ_eq_map]
      rw [List.filter_cons, List.filter_cons]
      have hf : ((fun i => (n + i) % k == 0) ∘ Nat.succ) =
          (fun i => (n + 1 + i) % k == 0) := by
        funext i
        have h : n + Nat.succ i = n + 1 + i := by omega
        simp [Function.comp, h]
      have hg : ((fun i : ℕ => (a :: l)[i]?) ∘ Nat.succ) = (fun i : ℕ => l[i]?) := by
        funext i
        simp [Function.comp]
      by_cases hn : n % k == 0
      · have hn0 : ((n + 0) % k == 0) = true := by simpa using hn
        simp only [hn, hn0, if_true]
        rw [List.map_cons, List.filterMap_cons]
        simp only [List.getElem?_cons_zero]
        rw [List.filter_map, List.filterMap_map, hf, hg]
        congr 1
        exact ih (n + 1)
      · have hn0 : ((n + 0) % k == 0) = false := by simpa using hn
        simp only [hn, hn0, if_false, Bool.false_eq_true]
        rw [List.filter_map, List.filterMap_map, hf, hg]
        exact ih (n + 1)

/-- The sampling characterization over `List.range`. -/
theorem sampleWaypoints_char (l : List Waypoint) (t : ℕ) :
    sampleWaypoints l t =
      ((List.range l.length).filter
        (fun i => i % max 1 (l.length / t) == 0)).filterMap (fun i => l[i]?) := by
  unfold sampleWaypoints
  have h := enumFrom_filter_map_eq (max 1 (l.length / t)) l 0
  simp only [Nat.zero_add] at h
  simpa [List.enum] using h

end VoyageRisk

namespace VoyageRisk

/-- C8: for a route of `N` waypoints and positive target count `t`, the
sampling policy selects exactly the waypoints whose index `i` satisfies
`i % k = 0` with `k = max 1 (N / t)`; the first waypoint is always
included; `N = 0` and `N = 1` return the input unchanged; and for
`N = 100`, `t = 5` exactly the 5 waypoints at indices
`0, 20, 40, 60, 80` are selected.  (`0 < t` marks the only regime the
source exercises: with `t = 0` the JS floor of `N/0` is infinite, which
the natural-number-division model does not represent.) -/
theorem sampleWaypoints_spec (l : List Waypoint) (t : ℕ) (_ht : 0 < t) :
    sampleWaypoints l t =
      ((List.range l.length).filter
        (fun i => i % max 1 (l.length / t) == 0)).filterMap (fun i => l[i]?) ∧
    (l ≠ [] → (sampleWaypoints l t).head? = l.head?) ∧
    (l.length ≤ 1 → sampleWaypoints l t = l) ∧
    (∀ h : l.length = 100,
      sampleWaypoints l 5 =
        [l.get ⟨0, by omega⟩, l.get ⟨20, by omega⟩, l.get ⟨40, by omega⟩,
         l.get ⟨60, by omega⟩, l.get ⟨80, by omega⟩] ∧
      (sampleWaypoints l 5).length = 5) := by
  refine ⟨sampleWaypoints_char l t, ?_, ?_, ?_⟩
  · intro hne
    rcases l with _ | ⟨a, rest⟩
    · exact absurd rfl hne
    · rw [sampleWaypoints_char]
      simp [List.range_succ_eq_map, List.filter_cons, List.filterMap_cons]
  · intro hle
    rcases l with _ | ⟨a, _ | ⟨b, rest⟩⟩
    · rfl
    · rw [sampleWaypoints_char]
      simp [show List.range 1 = [0] from rfl]
    · exfalso
      simp at hle
  · intro h100
    have hlist : sampleWaypoints l 5 =
        [l.get ⟨0, by omega⟩, l.get ⟨20, by omega⟩, l.get ⟨40, by omega⟩,
         l.get ⟨60, by omega⟩, l.get ⟨80, by omega⟩] := by
      rw [sampleWaypoints_char]
      have hk : max 1 (l.length / 5) = 20 := by rw [h100]; rfl
      have hrange : List.range l.length = List.range 100 := by rw [h100]
      rw [hk, hrange]
      have hfilter : (List.range 100).filter (fun i => i % 20 == 0) =
          [0, 20, 40, 60, 80] := by decide
      rw [hfilter]
      rw [List.filterMap_cons, List.filterMap_cons, List.filterMap_cons,
        List.filterMap_cons, List.filterMap_cons]
      rw [List.getElem?_eq_getElem (by omega), List.getElem?_eq_getElem (by omega),
        List.getElem?_eq_getElem (by omega), List.getElem?_eq_getElem (by omega),
        List.getElem?_eq_getElem (by omega)]
      simp [List.get_eq_getElem]
    exact ⟨hlist, by rw [hlist]; rfl⟩

end VoyageRisk

namespace VoyageRisk

/-- A concrete 100-point route for instantiating the sampling theorem. -/
def wps100 : List Waypoint :=
  (List.range 100).map (fun (i : ℕ) => { latitude := (i : ℚ), longitude := 0 })

theorem wps100_length : wps100.length = 100 := by
  unfold wps100
  rw [List.length_map, List.length_range]

/-- Witness for C8 on a 100-point route and a singleton route. -/
theorem sampleWaypoints_spec_witness :
    (sampleWaypoints wps100 5).head? = wps100.head? ∧
    sampleWaypoints [⟨1, 2⟩] 5 = [⟨1, 2⟩] ∧
    (sampleWaypoints wps100 5).length = 5 :=
  ⟨(sampleWaypoints_spec wps100 5 (by norm_num)).2.1
     (List.length_pos.mp (by rw [wps100_length]; norm_num)),
   (sampleWaypoints_spec [⟨1, 2⟩] 5 (by norm_num)).2.2.1 (by simp),
   ((sampleWaypoints_spec wps100 5 (by norm_num)).2.2.2 wps100_length).2⟩

end VoyageRisk
